import Mathlib

/-!
Shallow embedding of the KremCheats detection server: `server.js`
(v2.1.0) and the two unnamed revisions of the same service
(v2.2.0 and v2.3.0).

The presence tracker (`/connect`, `/disconnect`, `/heartbeat` handlers),
the detection handler (`/detect`) of each revision, and the v2.2.0
model loader together with its `/reload-model` endpoint are translated
into pure functions over explicit state.  The image decoder and the
object detector are external collaborators; they are taken as function
parameters returning `Except String`, where `Except.error m` stands for
a thrown exception whose message is `m`.
-/

namespace FnServer

/-- JS `x || d` for an optional string `x` (absent, or a string that may
be empty; the empty string is falsy). -/
def jsOrStr : Option String → String → String
  | none, d => d
  | some s, d => if s = "" then d else s

/-- JS `x || d` for an optional number used as a `Nat`
(`req.body.maxDetections || 5`): `0` is falsy and yields the default. -/
def jsOrNat : Option Nat → Nat → Nat
  | none, d => d
  | some n, d => if n = 0 then d else n

/-- JS `x || d` for an optional number used as a rational
(`req.body.confidence || 0.35`): `0` is falsy and yields the default. -/
def jsOrRat : Option ℚ → ℚ → ℚ
  | none, d => d
  | some q, d => if q = 0 then d else q

/-- The `stats` object shared by all three revisions:
`{ totalConnections, activeUsers, totalDetections, peakUsers }`.
`activeUsers` is a JS `Set` of strings, embedded as a `Finset String`. -/
structure Stats where
  totalConnections : Nat
  activeUsers : Finset String
  totalDetections : Nat
  peakUsers : Nat
deriving DecidableEq

/-- The initial `stats` value: all counters `0`, empty user set. -/
def initStats : Stats := ⟨0, ∅, 0, 0⟩

/-- Body of the JSON response of `POST /connect`
(the v2.2.0/v2.3.0 revisions additionally echo `modelReady`, which no
claim concerns and which is independent of the tracker state). -/
structure ConnectResp where
  success : Bool
  userId : String
  activeUsers : Nat
deriving DecidableEq

/-- `POST /connect` (identical in all three revisions).  `userId` is the
resolved identifier: the caller-supplied one if truthy, otherwise the
freshly generated `user_<time>_<random>` string; either way the handler
adds it, increments `totalConnections` unconditionally, and raises
`peakUsers` to the new cardinality when exceeded. -/
def connect (s : Stats) (userId : String) : Stats × ConnectResp :=
  let active := insert userId s.activeUsers
  let peak := if active.card > s.peakUsers then active.card else s.peakUsers
  (⟨s.totalConnections + 1, active, s.totalDetections, peak⟩,
   ⟨true, userId, active.card⟩)

/-- `POST /disconnect` (identical in all three revisions):
`if (userId) stats.activeUsers.delete(userId)`; an absent or empty
(falsy) `userId` leaves the set untouched. -/
def disconnect (s : Stats) (userId : Option String) : Stats :=
  match userId with
  | some u =>
      if u = "" then s
      else ⟨s.totalConnections, s.activeUsers.erase u, s.totalDetections, s.peakUsers⟩
  | none => s

/-- `POST /heartbeat` of v2.1.0 (`server.js`) and v2.2.0:
`if (userId && !stats.activeUsers.has(userId)) { add; totalConnections++ }`.
Note that `peakUsers` is not touched. -/
def heartbeat (s : Stats) (userId : Option String) : Stats :=
  match userId with
  | some u =>
      if u = "" then s
      else if u ∈ s.activeUsers then s
      else ⟨s.totalConnections + 1, insert u s.activeUsers, s.totalDetections, s.peakUsers⟩
  | none => s

/-- `POST /heartbeat` of v2.3.0: same guard, but the body is only
`stats.activeUsers.add(userId)` — `totalConnections` is not incremented. -/
def heartbeat_v3 (s : Stats) (userId : Option String) : Stats :=
  match userId with
  | some u =>
      if u = "" then s
      else if u ∈ s.activeUsers then s
      else ⟨s.totalConnections, insert u s.activeUsers, s.totalDetections, s.peakUsers⟩
  | none => s

/-- One presence-tracker request. -/
inductive Op where
  | connect (id : String)
  | disconnect (id : Option String)
  | heartbeat (id : Option String)
deriving DecidableEq

/-- Whether an operation is a heartbeat request. -/
def Op.isHeartbeat : Op → Bool
  | .heartbeat _ => true
  | _ => false

/-- State transition of one request in v2.1.0/v2.2.0. -/
def step (s : Stats) : Op → Stats
  | .connect id => (connect s id).1
  | .disconnect id => disconnect s id
  | .heartbeat id => heartbeat s id

/-- State transition of one request in v2.3.0 (heartbeat does not
increment `totalConnections`). -/
def step_v3 (s : Stats) : Op → Stats
  | .connect id => (connect s id).1
  | .disconnect id => disconnect s id
  | .heartbeat id => heartbeat_v3 s id

/-- State after a sequence of requests from the initial state,
v2.1.0/v2.2.0 semantics. -/
def run (ops : List Op) : Stats := ops.foldl step initStats

/-- State after a sequence of requests from the initial state,
v2.3.0 semantics. -/
def run_v3 (ops : List Op) : Stats := ops.foldl step_v3 initStats

/-- One detection result of the external Detector, a JS object
`{ class, score, bbox }`; the JS field `class` is a Lean keyword and is
embedded as `cls`. -/
structure Pred where
  cls : String
  score : ℚ
  bbox : List ℚ
deriving DecidableEq

/-- Body of a `POST /detect` request: `image` (encoded, possibly with a
`data:...,` prefix), optional `confidence`, optional `maxDetections`. -/
structure DetectReq where
  image : Option String
  confidence : Option ℚ
  maxDetections : Option Nat
deriving DecidableEq

/-- Body of the JSON response of `POST /detect`.  Fields absent from a
revision's `res.json({...})` call are `none`. -/
structure DetectResp where
  predictions : List Pred
  count : Option Nat
  backend : Option String
  error : Option String
deriving DecidableEq

/-- `if (img.includes(',')) img = img.split(',')[1]` — strip a data-URL
prefix, keeping the segment between the first and second comma (the
whole remainder when there is no second comma), as `split(',')[1]`
does.  Implemented on the character list so that it evaluates inside
the kernel. -/
def stripDataUrl (s : String) : String :=
  if ',' ∈ s.data then String.mk ((s.data.splitOn ',').getD 1 []) else s

/-- `POST /detect` of v2.1.0 (`server.js`).  `decode` embeds
`tf.node.decodeImage(Buffer.from(img, 'base64'), 3)` and `runDetect`
embeds `detectionModel.detect(tensor, maxDetections, confidence)`; an
`Except.error` is a thrown exception reaching the `catch` block.  Note:
no payload-length validation, and neither the unloaded-model response
nor the `catch` response carries an `error` field. -/
def detect_v1 {τ : Type} (decode : String → Except String τ)
    (runDetect : τ → Nat → ℚ → Except String (List Pred))
    (modelLoaded : Bool) (st : Stats) (req : DetectReq) : Stats × DetectResp :=
  if !modelLoaded then (st, ⟨[], none, none, none⟩)
  else
    match decode (stripDataUrl (req.image.getD "")) with
    | .error _ => (st, ⟨[], none, none, none⟩)
    | .ok t =>
        match runDetect t (jsOrNat req.maxDetections 5) (jsOrRat req.confidence 0.35) with
        | .error _ => (st, ⟨[], none, none, none⟩)
        | .ok preds =>
            (⟨st.totalConnections, st.activeUsers, st.totalDetections + 1, st.peakUsers⟩,
             ⟨preds.filter (fun p => p.cls == "person"), none, none, none⟩)

/-- `POST /detect` of v2.2.0: guard `!CONFIG.modelLoaded || !detectionModel`
answers `{ predictions: [], error: CONFIG.loadError || 'Model not loaded' }`;
a payload that is empty or shorter than 100 characters after prefix
stripping is rejected before the decoder runs; the `catch` block reports
`e.message`; the success body is
`{ predictions, count, backend }`. -/
def detect_v2 {τ : Type} (decode : String → Except String τ)
    (runDetect : τ → Nat → ℚ → Except String (List Pred))
    (modelLoaded haveModel : Bool) (loadError : Option String) (backend : String)
    (st : Stats) (req : DetectReq) : Stats × DetectResp :=
  if !modelLoaded || !haveModel then
    (st, ⟨[], none, none, some (jsOrStr loadError "Model not loaded")⟩)
  else
    let img := stripDataUrl (req.image.getD "")
    if img = "" ∨ img.length < 100 then
      (st, ⟨[], none, none, some "Invalid image data"⟩)
    else
      match decode img with
      | .error e => (st, ⟨[], none, none, some e⟩)
      | .ok t =>
          match runDetect t (jsOrNat req.maxDetections 5) (jsOrRat req.confidence 0.35) with
          | .error e => (st, ⟨[], none, none, some e⟩)
          | .ok preds =>
              let persons := preds.filter (fun p => p.cls == "person")
              (⟨st.totalConnections, st.activeUsers, st.totalDetections + 1, st.peakUsers⟩,
               ⟨persons, some persons.length, some backend, none⟩)

/-- `POST /detect` of v2.3.0: like v2.2.0, but the length check
`!imageData || imageData.length < 100` runs on the raw payload before
prefix stripping (stripping happens inside its `decodeImage`), the
validation message is `'Invalid image'`, and the success body is
`{ predictions, count }` without a backend field. -/
def detect_v3 {τ : Type} (decode : String → Except String τ)
    (runDetect : τ → Nat → ℚ → Except String (List Pred))
    (modelLoaded haveModel : Bool) (st : Stats) (req : DetectReq) : Stats × DetectResp :=
  if !modelLoaded || !haveModel then
    (st, ⟨[], none, none, some "Model not loaded"⟩)
  else
    match req.image with
    | none => (st, ⟨[], none, none, some "Invalid image"⟩)
    | some raw =>
        if raw = "" ∨ raw.length < 100 then
          (st, ⟨[], none, none, some "Invalid image"⟩)
        else
          match decode (stripDataUrl raw) with
          | .error e => (st, ⟨[], none, none, some e⟩)
          | .ok t =>
              match runDetect t (jsOrNat req.maxDetections 5) (jsOrRat req.confidence 0.35) with
              | .error e => (st, ⟨[], none, none, some e⟩)
              | .ok preds =>
                  let persons := preds.filter (fun p => p.cls == "person")
                  (⟨st.totalConnections, st.activeUsers, st.totalDetections + 1, st.peakUsers⟩,
                   ⟨persons, some persons.length, none, none⟩)

/-- Environment of one v2.2.0 `loadModel()` call: the outcome of
`require('@tensorflow/tfjs-node')`, of `require('@tensorflow/tfjs')`,
and of `cocoSsd.load(...)`; `none` means success, `some m` a thrown
error with message `m`. -/
structure LoadEnv where
  tfjsNodeErr : Option String
  tfjsPureErr : Option String
  cocoLoadErr : Option String
deriving DecidableEq

/-- The model-related part of v2.2.0's `CONFIG`:
`{ modelLoaded, loadError, backend }`. -/
structure ModelConfig where
  modelLoaded : Bool
  loadError : Option String
  backend : String
deriving DecidableEq

/-- Backend-selection phase of v2.2.0 `loadModel()`: try `tfjs-node`,
fall back to pure `tfjs`; if both fail the diagnostic combines the
`tfjs-node` failure. -/
def loadBackend (env : LoadEnv) : Except String String :=
  match env.tfjsNodeErr with
  | none => .ok "tfjs-node"
  | some nodeErr =>
      match env.tfjsPureErr with
      | none => .ok "tfjs"
      | some _ => .error ("TensorFlow failed to load: " ++ nodeErr)

/-- v2.2.0 `loadModel()`: on backend failure record `loadError` and
return (leaving `modelLoaded` and `backend` untouched); otherwise set
`backend` and attempt the coco-ssd model load, which on success sets
`modelLoaded = true` and clears `loadError`, and on failure records its
own diagnostic while leaving `modelLoaded` untouched. -/
def loadModel (env : LoadEnv) (cfg : ModelConfig) : ModelConfig :=
  match loadBackend env with
  | .error msg => ⟨cfg.modelLoaded, some msg, cfg.backend⟩
  | .ok bk =>
      match env.cocoLoadErr with
      | none => ⟨true, none, bk⟩
      | some me => ⟨cfg.modelLoaded, some ("Model failed to load: " ++ me), bk⟩

/-- Body of the JSON response of `POST /reload-model`. -/
structure ReloadResp where
  success : Bool
  backend : String
  error : Option String
deriving DecidableEq

/-- `POST /reload-model` of v2.2.0: reset `modelLoaded = false`, clear
`loadError`, re-run `loadModel()` from scratch, and report the outcome. -/
def reloadModel (env : LoadEnv) (cfg : ModelConfig) : ModelConfig × ReloadResp :=
  let cfg1 : ModelConfig := ⟨false, none, cfg.backend⟩
  let cfg2 := loadModel env cfg1
  (cfg2, ⟨cfg2.modelLoaded, cfg2.backend, cfg2.loadError⟩)

/-- A decoder that always throws, for concrete evaluations. -/
def dErr : String → Except String Nat := fun _ => Except.error "decode failed"

/-- A decoder that always succeeds, for concrete evaluations. -/
def dOk : String → Except String Nat := fun _ => Except.ok 0

/-- A detector that always returns no detections. -/
def rdEmpty : Nat → Nat → ℚ → Except String (List Pred) := fun _ _ _ => Except.ok []

/-- A sample detection labeled `person`. -/
def pPerson : Pred := ⟨"person", 1, []⟩

/-- A detector that always returns the single `person` detection. -/
def rdPerson : Nat → Nat → ℚ → Except String (List Pred) := fun _ _ _ => Except.ok [pPerson]

/-- A concrete well-formed payload of 120 characters (no comma, so
prefix stripping leaves it unchanged). -/
def longImg : String := String.mk (List.replicate 120 'A')

/-- Every element surviving the person filter of the detect handlers
has class `"person"`. -/
lemma filter_person_cls (preds : List Pred) :
    ∀ p ∈ preds.filter (fun p => p.cls == "person"), p.cls = "person" := by
  intro p hp
  exact eq_of_beq (List.mem_filter.mp hp).2

/-- A predicate preserved by each allowed step holds after any allowed
request sequence. -/
lemma foldl_pres {P : Stats → Prop} {Q : Op → Prop} (f : Stats → Op → Stats)
    (hf : ∀ s op, Q op → P s → P (f s op)) :
    ∀ (ops : List Op) (s : Stats), (∀ op ∈ ops, Q op) → P s → P (List.foldl f s ops) := by
  intro ops
  induction ops with
  | nil => intro s _ hs; simpa using hs
  | cons a l ih =>
      intro s hall hs
      simp only [List.foldl_cons]
      exact ih (f s a) (fun op hop => hall op (List.mem_cons_of_mem a hop))
        (hf s a (hall a (List.mem_cons_self a l)) hs)

/-- A connect or disconnect step preserves `activeUsers.card ≤ peakUsers`. -/
lemma step_pres_peak (s : Stats) (op : Op) (hop : op.isHeartbeat = false)
    (h : s.activeUsers.card ≤ s.peakUsers) :
    (step s op).activeUsers.card ≤ (step s op).peakUsers := by
  cases op with
  | connect id =>
      simp only [step, connect]
      split <;> omega
  | disconnect id =>
      cases id with
      | none => simpa [step, disconnect] using h
      | some u =>
          by_cases hu : u = ""
          · simpa [step, disconnect, hu] using h
          · simp only [step, disconnect, hu, if_neg]
            exact le_trans (Finset.card_erase_le) h
  | heartbeat id => simp [Op.isHeartbeat] at hop

/-- Every step of v2.1.0/v2.2.0 preserves
`activeUsers.card ≤ totalConnections`. -/
lemma step_pres_total (s : Stats) (op : Op)
    (h : s.activeUsers.card ≤ s.totalConnections) :
    (step s op).activeUsers.card ≤ (step s op).totalConnections := by
  cases op with
  | connect id =>
      simp only [step, connect]
      have := Finset.card_insert_le id s.activeUsers
      omega
  | disconnect id =>
      cases id with
      | none => simpa [step, disconnect] using h
      | some u =>
          by_cases hu : u = ""
          · simpa [step, disconnect, hu] using h
          · simp only [step, disconnect, hu, if_neg]
            exact le_trans (Finset.card_erase_le) h
  | heartbeat id =>
      cases id with
      | none => simpa [step, heartbeat] using h
      | some u =>
          by_cases hu : u = ""
          · simpa [step, heartbeat, hu] using h
          · by_cases hm : u ∈ s.activeUsers
            · simpa [step, heartbeat, hu, hm] using h
            · have hc := Finset.card_insert_le u s.activeUsers
              simp only [step, heartbeat, if_neg hu, if_neg hm]
              omega

/-- Claim C1 (counterexample): the claimed invariant
`activeUsers.size ≤ peakUsers` is already violated after the
one-operation sequence `[Heartbeat "a"]` from the initial state: the
heartbeat handler re-adds the user without updating `peakUsers`, so the
state has one active user but `peakUsers = 0`. -/
theorem C1_counterexample :
    ¬ ((run [Op.heartbeat (some "a")]).activeUsers.card ≤
        (run [Op.heartbeat (some "a")]).peakUsers) := by
  decide

/-- Claim C1 (amended): for every sequence of Connect and Disconnect
operations (no Heartbeat) applied to the initial presence state,
`activeUsers.size ≤ peakUsers` holds after every operation; a
heartbeat revival can violate the invariant because no revision's
heartbeat handler updates `peakUsers`. -/
theorem C1_amended (ops : List Op) (h : ∀ op ∈ ops, op.isHeartbeat = false) :
    (run ops).activeUsers.card ≤ (run ops).peakUsers := by
  exact foldl_pres (P := fun s => s.activeUsers.card ≤ s.peakUsers)
    (Q := fun op => op.isHeartbeat = false) step step_pres_peak ops initStats h (by decide)

/-- Claim C1 (witness): the amended theorem applied to the concrete
sequence `[Connect "alice", Disconnect "alice"]`. -/
theorem C1_witness :
    (run [Op.connect "alice", Op.disconnect (some "alice")]).activeUsers.card ≤
      (run [Op.connect "alice", Op.disconnect (some "alice")]).peakUsers :=
  C1_amended [Op.connect "alice", Op.disconnect (some "alice")] (by decide)

/-- Claim C2 (counterexample): in the v2.3.0 revision the heartbeat
handler re-adds a user without incrementing `totalConnections`, so
after the sequence `[Heartbeat "a"]` from the initial state there is
one active user while `totalConnections = 0`, refuting
`totalConnections ≥ activeUsers.size`. -/
theorem C2_counterexample :
    ¬ ((run_v3 [Op.heartbeat (some "a")]).activeUsers.card ≤
        (run_v3 [Op.heartbeat (some "a")]).totalConnections) := by
  decide

/-- Claim C2 (amended): in the v2.1.0 and v2.2.0 revisions, whose
heartbeat increments `totalConnections` when re-adding a user,
`totalConnections ≥ activeUsers.size` holds after every operation of
every Connect/Disconnect/Heartbeat sequence; in the v2.3.0 revision the
invariant holds for every sequence without Heartbeat operations. -/
theorem C2_amended :
    (∀ ops : List Op,
      (run ops).activeUsers.card ≤ (run ops).totalConnections) ∧
    (∀ ops : List Op, (∀ op ∈ ops, op.isHeartbeat = false) →
      (run_v3 ops).activeUsers.card ≤ (run_v3 ops).totalConnections) := by
  constructor
  · intro ops
    exact foldl_pres (P := fun s => s.activeUsers.card ≤ s.totalConnections)
      (Q := fun _ => True) step (fun s op _ h => step_pres_total s op h) ops initStats
      (fun _ _ => trivial) (by decide)
  · intro ops h
    refine foldl_pres (P := fun s => s.activeUsers.card ≤ s.totalConnections)
      (Q := fun op => op.isHeartbeat = false) step_v3 ?_ ops initStats h (by decide)
    intro s op hop hs
    cases op with
    | connect id =>
        simp only [step_v3, connect]
        have := Finset.card_insert_le id s.activeUsers
        omega
    | disconnect id =>
        cases id with
        | none => simpa [step_v3, disconnect] using hs
        | some u =>
            by_cases hu : u = ""
            · simpa [step_v3, disconnect, hu] using hs
            · simp only [step_v3, disconnect, hu, if_neg]
              exact le_trans (Finset.card_erase_le) hs
    | heartbeat id => simp [Op.isHeartbeat] at hop

/-- Claim C2 (witness): the amended theorem applied to the concrete
sequences `[Heartbeat "a"]` (v2.1.0/v2.2.0 part) and `[Connect "a"]`
(v2.3.0 part). -/
theorem C2_witness :
    (run [Op.heartbeat (some "a")]).activeUsers.card ≤
      (run [Op.heartbeat (some "a")]).totalConnections ∧
    (run_v3 [Op.connect "a"]).activeUsers.card ≤
      (run_v3 [Op.connect "a"]).totalConnections :=
  ⟨C2_amended.1 [Op.heartbeat (some "a")], C2_amended.2 [Op.connect "a"] (by decide)⟩

/-- Claim C3 (counterexample): in the v2.3.0 revision, a heartbeat with
the fresh id `"a"` from the initial state re-adds the id but leaves
`totalConnections` at `0` instead of incrementing it to `1` as claimed. -/
theorem C3_counterexample :
    (heartbeat_v3 initStats (some "a")).activeUsers =
      insert "a" initStats.activeUsers ∧
    ¬ ((heartbeat_v3 initStats (some "a")).totalConnections =
        initStats.totalConnections + 1) := by
  decide

/-- Claim C3 (amended): a heartbeat for an id currently in `activeUsers`
leaves the state unchanged in every revision; a heartbeat for a
non-empty id not in `activeUsers` re-adds the id and increments
`totalConnections` by exactly 1 in v2.1.0/v2.2.0, while in v2.3.0 it
re-adds the id and leaves `totalConnections` unchanged. -/
theorem C3_amended (s : Stats) (u : String) :
    (u ∈ s.activeUsers →
      heartbeat s (some u) = s ∧ heartbeat_v3 s (some u) = s) ∧
    (u ≠ "" → u ∉ s.activeUsers →
      heartbeat s (some u) =
        ⟨s.totalConnections + 1, insert u s.activeUsers, s.totalDetections, s.peakUsers⟩ ∧
      heartbeat_v3 s (some u) =
        ⟨s.totalConnections, insert u s.activeUsers, s.totalDetections, s.peakUsers⟩) := by
  constructor
  · intro hm
    by_cases hu : u = "" <;> simp [heartbeat, heartbeat_v3, hu, hm]
  · intro hu hm
    simp [heartbeat, heartbeat_v3, hu, hm]

/-- Claim C3 (witness): the amended theorem applied to the concrete
state with `"a"` active (first part) and to the initial state with the
fresh id `"b"` (second part). -/
theorem C3_witness :
    heartbeat ⟨1, {"a"}, 0, 1⟩ (some "a") = ⟨1, {"a"}, 0, 1⟩ ∧
    heartbeat_v3 initStats (some "b") =
      ⟨initStats.totalConnections, insert "b" initStats.activeUsers,
        initStats.totalDetections, initStats.peakUsers⟩ :=
  ⟨((C3_amended ⟨1, {"a"}, 0, 1⟩ "a").1 (by decide)).1,
   ((C3_amended initStats "b").2 (by decide) (by decide)).2⟩

/-- Claim C4: for every presence state and every resolved id (including
an id already in `activeUsers`), Connect adds the id to `activeUsers`,
increments `totalConnections` by exactly 1 unconditionally, sets
`peakUsers` to `max(peakUsers, activeUsers.size)`, leaves
`totalDetections` alone, and responds with the identifier and the
current active count. -/
theorem C4_connect (s : Stats) (id : String) :
    (connect s id).1.activeUsers = insert id s.activeUsers ∧
    (connect s id).1.totalConnections = s.totalConnections + 1 ∧
    (connect s id).1.peakUsers = max s.peakUsers (insert id s.activeUsers).card ∧
    (connect s id).1.totalDetections = s.totalDetections ∧
    (connect s id).2.userId = id ∧
    (connect s id).2.activeUsers = (connect s id).1.activeUsers.card ∧
    (connect s id).2.success = true := by
  refine ⟨rfl, rfl, ?_, rfl, rfl, rfl, rfl⟩
  simp only [connect]
  split <;> omega

/-- Claim C5 (counterexample): in v2.1.0 (`server.js`) the
unloaded-model response of `/detect` is `{ predictions: [] }` with no
`error` field at all, refuting the claimed non-empty error field.
Evaluated at a concrete request against a decoder and detector that
always succeed. -/
theorem C5_counterexample :
    (detect_v1 dOk rdEmpty false initStats ⟨some "x", none, none⟩).2.predictions = [] ∧
    (detect_v1 dOk rdEmpty false initStats ⟨some "x", none, none⟩).2.error = none := by
  decide

/-- Claim C5 (amended): if the model is not loaded, every revision's
`/detect` handler returns an empty predictions list without changing
the state, and the response is the same for every decoder and detector
(so neither is invoked); the v2.2.0 and v2.3.0 handlers additionally
return a non-empty `error` field, while the v2.1.0 handler returns no
`error` field. -/
theorem C5_amended {τ : Type} (decode : String → Except String τ)
    (runDetect : τ → Nat → ℚ → Except String (List Pred))
    (hv : Bool) (loadError : Option String) (bk : String)
    (st : Stats) (req : DetectReq) :
    detect_v1 decode runDetect false st req = (st, ⟨[], none, none, none⟩) ∧
    detect_v2 decode runDetect false hv loadError bk st req =
      (st, ⟨[], none, none, some (jsOrStr loadError "Model not loaded")⟩) ∧
    jsOrStr loadError "Model not loaded" ≠ "" ∧
    detect_v3 decode runDetect false hv st req =
      (st, ⟨[], none, none, some "Model not loaded"⟩) := by
  refine ⟨by simp [detect_v1], by simp [detect_v2], ?_, by simp [detect_v3]⟩
  cases loadError with
  | none => simp [jsOrStr]
  | some s =>
      simp only [jsOrStr]
      split
      · simp
      · assumption

/-- Claim C6 (counterexample): v2.1.0 performs no payload-length
validation: for the short payload `"abc"` against a loaded model the
outcome depends on the decoder (so the Decoder is invoked — here a
failing and a succeeding decoder produce different states), and the
response carries no validation error message. -/
theorem C6_counterexample :
    detect_v1 dErr rdEmpty true initStats ⟨some "abc", none, none⟩ ≠
      detect_v1 dOk rdEmpty true initStats ⟨some "abc", none, none⟩ ∧
    (detect_v1 dErr rdEmpty true initStats ⟨some "abc", none, none⟩).2.error = none := by
  decide

/-- Claim C6 (amended): in v2.2.0 and v2.3.0, a request whose image
payload is absent or shorter than 100 characters yields an empty
predictions list with a validation error message and an unchanged
state, uniformly in the decoder and detector (so the Decoder is not
invoked); the v2.1.0 handler has no such validation and feeds any
payload to the Decoder. -/
theorem C6_amended {τ : Type} (decode : String → Except String τ)
    (runDetect : τ → Nat → ℚ → Except String (List Pred))
    (loadError : Option String) (bk : String) (st : Stats) (req : DetectReq) :
    ((stripDataUrl (req.image.getD "") = "" ∨
        (stripDataUrl (req.image.getD "")).length < 100) →
      detect_v2 decode runDetect true true loadError bk st req =
        (st, ⟨[], none, none, some "Invalid image data"⟩)) ∧
    ((req.image.getD "" = "" ∨ (req.image.getD "").length < 100) →
      detect_v3 decode runDetect true true st req =
        (st, ⟨[], none, none, some "Invalid image"⟩)) := by
  constructor
  · intro hshort
    simp [detect_v2, hshort]
  · intro hshort
    cases himg : req.image with
    | none => simp [detect_v3, himg]
    | some raw =>
        rw [himg] at hshort
        simp only [Option.getD_some] at hshort
        simp [detect_v3, himg, hshort]

/-- Claim C6 (witness): the amended theorem applied to the concrete
short payload `"abc"`. -/
theorem C6_witness :
    detect_v2 dOk rdEmpty true true none "tfjs-node" initStats ⟨some "abc", none, none⟩ =
      (initStats, ⟨[], none, none, some "Invalid image data"⟩) ∧
    detect_v3 dOk rdEmpty true true initStats ⟨some "abc", none, none⟩ =
      (initStats, ⟨[], none, none, some "Invalid image"⟩) :=
  ⟨(C6_amended dOk rdEmpty none "tfjs-node" initStats ⟨some "abc", none, none⟩).1 (by decide),
   (C6_amended dOk rdEmpty none "tfjs-node" initStats ⟨some "abc", none, none⟩).2 (by decide)⟩

/-- Claim C7 (counterexample): a successful v2.1.0 detection (decoder
and detector succeed against a loaded model — `totalDetections` is
incremented) produces a response whose `count` field is absent, so it
does not equal the length of the one-element predictions list. -/
theorem C7_counterexample :
    (detect_v1 dOk rdPerson true initStats ⟨some "abc", none, none⟩).1.totalDetections =
      initStats.totalDetections + 1 ∧
    ¬ ((detect_v1 dOk rdPerson true initStats ⟨some "abc", none, none⟩).2.count =
        some (detect_v1 dOk rdPerson true initStats ⟨some "abc", none, none⟩).2.predictions.length) := by
  decide

/-- Claim C7 (amended): every element of the predictions list of any
`/detect` response has class `"person"` in all three revisions; in
v2.2.0 and v2.3.0 a successful response (one whose `error` field is
absent) carries `count` equal to the length of its predictions list,
while v2.1.0 responses never carry a `count` field. -/
theorem C7_amended {τ : Type} (decode : String → Except String τ)
    (runDetect : τ → Nat → ℚ → Except String (List Pred))
    (ml hv : Bool) (loadError : Option String) (bk : String)
    (st : Stats) (req : DetectReq) :
    ((∀ p ∈ (detect_v1 decode runDetect ml st req).2.predictions, p.cls = "person") ∧
      (detect_v1 decode runDetect ml st req).2.count = none) ∧
    ((detect_v2 decode runDetect ml hv loadError bk st req).2.error = none →
      (detect_v2 decode runDetect ml hv loadError bk st req).2.count =
        some (detect_v2 decode runDetect ml hv loadError bk st req).2.predictions.length ∧
      ∀ p ∈ (detect_v2 decode runDetect ml hv loadError bk st req).2.predictions,
        p.cls = "person") ∧
    ((detect_v3 decode runDetect ml hv st req).2.error = none →
      (detect_v3 decode runDetect ml hv st req).2.count =
        some (detect_v3 decode runDetect ml hv st req).2.predictions.length ∧
      ∀ p ∈ (detect_v3 decode runDetect ml hv st req).2.predictions,
        p.cls = "person") := by
  refine ⟨?_, ?_, ?_⟩
  · cases ml with
    | false => simp [detect_v1]
    | true =>
        cases hdec : decode (stripDataUrl (req.image.getD "")) with
        | error e => simp [detect_v1, hdec]
        | ok t =>
            cases hrd : runDetect t (jsOrNat req.maxDetections 5) (jsOrRat req.confidence 0.35) with
            | error e => simp [detect_v1, hdec, hrd]
            | ok preds =>
                have heq : detect_v1 decode runDetect true st req =
                    (⟨st.totalConnections, st.activeUsers, st.totalDetections + 1,
                        st.peakUsers⟩,
                     ⟨preds.filter (fun p => p.cls == "person"), none, none, none⟩) := by
                  simp [detect_v1, hdec, hrd]
                rw [heq]
                exact ⟨filter_person_cls preds, rfl⟩
  · intro herr
    cases ml with
    | false => simp [detect_v2] at herr
    | true =>
        cases hv with
        | false => simp [detect_v2] at herr
        | true =>
            by_cases hshort : stripDataUrl (req.image.getD "") = "" ∨
                (stripDataUrl (req.image.getD "")).length < 100
            · simp [detect_v2, hshort] at herr
            · cases hdec : decode (stripDataUrl (req.image.getD "")) with
              | error e => simp [detect_v2, hshort, hdec] at herr
              | ok t =>
                  cases hrd : runDetect t (jsOrNat req.maxDetections 5)
                      (jsOrRat req.confidence 0.35) with
                  | error e => simp [detect_v2, hshort, hdec, hrd] at herr
                  | ok preds =>
                      have heq : detect_v2 decode runDetect true true loadError bk st req =
                          (⟨st.totalConnections, st.activeUsers, st.totalDetections + 1,
                              st.peakUsers⟩,
                           ⟨preds.filter (fun p => p.cls == "person"),
                             some (preds.filter (fun p => p.cls == "person")).length,
                             some bk, none⟩) := by
                        simp [detect_v2, hshort, hdec, hrd]
                      rw [heq]
                      exact ⟨rfl, filter_person_cls preds⟩
  · intro herr
    cases ml with
    | false => simp [detect_v3] at herr
    | true =>
        cases hv with
        | false => simp [detect_v3] at herr
        | true =>
            cases himg : req.image with
            | none => simp [detect_v3, himg] at herr
            | some raw =>
                by_cases hshort : raw = "" ∨ raw.length < 100
                · simp [detect_v3, himg, hshort] at herr
                · cases hdec : decode (stripDataUrl raw) with
                  | error e => simp [detect_v3, himg, hshort, hdec] at herr
                  | ok t =>
                      cases hrd : runDetect t (jsOrNat req.maxDetections 5)
                          (jsOrRat req.confidence 0.35) with
                      | error e => simp [detect_v3, himg, hshort, hdec, hrd] at herr
                      | ok preds =>
                          have heq : detect_v3 decode runDetect true true st req =
                              (⟨st.totalConnections, st.activeUsers, st.totalDetections + 1,
                                  st.peakUsers⟩,
                               ⟨preds.filter (fun p => p.cls == "person"),
                                 some (preds.filter (fun p => p.cls == "person")).length,
                                 none, none⟩) := by
                            simp [detect_v3, himg, hshort, hdec, hrd]
                          rw [heq]
                          exact ⟨rfl, filter_person_cls preds⟩

set_option maxRecDepth 4096 in
/-- Claim C7 (witness): the amended theorem applied to a concrete
successful v2.2.0 request: the response of the 120-character payload
with the always-person detector has `count = some 1` and its single
element is the person detection. -/
theorem C7_witness :
    (detect_v2 dOk rdPerson true true none "tfjs-node" initStats
        ⟨some longImg, none, none⟩).2.count =
      some (detect_v2 dOk rdPerson true true none "tfjs-node" initStats
        ⟨some longImg, none, none⟩).2.predictions.length ∧
    pPerson.cls = "person" :=
  ⟨((C7_amended dOk rdPerson true true none "tfjs-node" initStats
      ⟨some longImg, none, none⟩).2.1 (by decide)).1,
   ((C7_amended dOk rdPerson true true none "tfjs-node" initStats
      ⟨some longImg, none, none⟩).2.1 (by decide)).2 pPerson (by decide)⟩

/-- Claim C8 (counterexample): in v2.1.0, a decode failure against a
loaded model yields a response with no `error` field that is literally
identical to the response of a successful detection finding no persons
(which does increment `totalDetections`), so the failure response does
not communicate the failure. -/
theorem C8_counterexample :
    (detect_v1 dErr rdPerson true initStats ⟨some "abc", none, none⟩).2.error = none ∧
    (detect_v1 dErr rdPerson true initStats ⟨some "abc", none, none⟩).2 =
      (detect_v1 dOk rdEmpty true initStats ⟨some "abc", none, none⟩).2 ∧
    (detect_v1 dOk rdEmpty true initStats ⟨some "abc", none, none⟩).1.totalDetections =
      initStats.totalDetections + 1 ∧
    (detect_v1 dErr rdPerson true initStats ⟨some "abc", none, none⟩).1.totalDetections =
      initStats.totalDetections := by
  decide

/-- Claim C8 (amended): against a loaded model, in every revision a
successful decode-and-detect increments `totalDetections` by exactly 1
and a failure inside the Decoder/Detector path leaves the whole state
unchanged and returns a well-formed empty-predictions response; the
v2.2.0 and v2.3.0 failure responses carry a diagnostic `error` message,
while the v2.1.0 failure response carries no `error` field (it equals a
successful empty detection's body).  For v2.2.0/v2.3.0 success is
characterised by the absent `error` field. -/
theorem C8_amended {τ : Type} (decode : String → Except String τ)
    (runDetect : τ → Nat → ℚ → Except String (List Pred))
    (loadError : Option String) (bk : String) (st : Stats) (req : DetectReq)
    (t : τ) (e : String) (preds : List Pred) :
    (decode (stripDataUrl (req.image.getD "")) = Except.error e →
      detect_v1 decode runDetect true st req = (st, ⟨[], none, none, none⟩)) ∧
    (decode (stripDataUrl (req.image.getD "")) = Except.ok t →
      runDetect t (jsOrNat req.maxDetections 5) (jsOrRat req.confidence 0.35) =
        Except.error e →
      detect_v1 decode runDetect true st req = (st, ⟨[], none, none, none⟩)) ∧
    (decode (stripDataUrl (req.image.getD "")) = Except.ok t →
      runDetect t (jsOrNat req.maxDetections 5) (jsOrRat req.confidence 0.35) =
        Except.ok preds →
      detect_v1 decode runDetect true st req =
        (⟨st.totalConnections, st.activeUsers, st.totalDetections + 1, st.peakUsers⟩,
         ⟨preds.filter (fun p => p.cls == "person"), none, none, none⟩)) ∧
    ((detect_v2 decode runDetect true true loadError bk st req).2.error = none →
      (detect_v2 decode runDetect true true loadError bk st req).1 =
        ⟨st.totalConnections, st.activeUsers, st.totalDetections + 1, st.peakUsers⟩) ∧
    ((detect_v2 decode runDetect true true loadError bk st req).2.error ≠ none →
      (detect_v2 decode runDetect true true loadError bk st req).1 = st ∧
      (detect_v2 decode runDetect true true loadError bk st req).2.predictions = []) ∧
    ((detect_v3 decode runDetect true true st req).2.error = none →
      (detect_v3 decode runDetect true true st req).1 =
        ⟨st.totalConnections, st.activeUsers, st.totalDetections + 1, st.peakUsers⟩) ∧
    ((detect_v3 decode runDetect true true st req).2.error ≠ none →
      (detect_v3 decode runDetect true true st req).1 = st ∧
      (detect_v3 decode runDetect true true st req).2.predictions = []) := by
  refine ⟨?_, ?_, ?_, ?_, ?_, ?_, ?_⟩
  · intro hdec
    simp [detect_v1, hdec]
  · intro hdec hrd
    simp [detect_v1, hdec, hrd]
  · intro hdec hrd
    simp [detect_v1, hdec, hrd]
  · intro herr
    by_cases hshort : stripDataUrl (req.image.getD "") = "" ∨
        (stripDataUrl (req.image.getD "")).length < 100
    · simp [detect_v2, hshort] at herr
    · cases hdec : decode (stripDataUrl (req.image.getD "")) with
      | error e2 => simp [detect_v2, hshort, hdec] at herr
      | ok t2 =>
          cases hrd : runDetect t2 (jsOrNat req.maxDetections 5)
              (jsOrRat req.confidence 0.35) with
          | error e2 => simp [detect_v2, hshort, hdec, hrd] at herr
          | ok preds2 => simp [detect_v2, hshort, hdec, hrd]
  · intro herr
    by_cases hshort : stripDataUrl (req.image.getD "") = "" ∨
        (stripDataUrl (req.image.getD "")).length < 100
    · simp [detect_v2, hshort]
    · cases hdec : decode (stripDataUrl (req.image.getD "")) with
      | error e2 => simp [detect_v2, hshort, hdec]
      | ok t2 =>
          cases hrd : runDetect t2 (jsOrNat req.maxDetections 5)
              (jsOrRat req.confidence 0.35) with
          | error e2 => simp [detect_v2, hshort, hdec, hrd]
          | ok preds2 =>
              exfalso
              apply herr
              simp [detect_v2, hshort, hdec, hrd]
  · intro herr
    cases himg : req.image with
    | none => simp [detect_v3, himg] at herr
    | some raw =>
        by_cases hshort : raw = "" ∨ raw.length < 100
        · simp [detect_v3, himg, hshort] at herr
        · cases hdec : decode (stripDataUrl raw) with
          | error e2 => simp [detect_v3, himg, hshort, hdec] at herr
          | ok t2 =>
              cases hrd : runDetect t2 (jsOrNat req.maxDetections 5)
                  (jsOrRat req.confidence 0.35) with
              | error e2 => simp [detect_v3, himg, hshort, hdec, hrd] at herr
              | ok preds2 => simp [detect_v3, himg, hshort, hdec, hrd]
  · intro herr
    cases himg : req.image with
    | none => simp [detect_v3, himg]
    | some raw =>
        by_cases hshort : raw = "" ∨ raw.length < 100
        · simp [detect_v3, himg, hshort]
        · cases hdec : decode (stripDataUrl raw) with
          | error e2 => simp [detect_v3, himg, hshort, hdec]
          | ok t2 =>
              cases hrd : runDetect t2 (jsOrNat req.maxDetections 5)
                  (jsOrRat req.confidence 0.35) with
              | error e2 => simp [detect_v3, himg, hshort, hdec, hrd]
              | ok preds2 =>
                  exfalso
                  apply herr
                  simp [detect_v3, himg, hshort, hdec, hrd]

set_option maxRecDepth 4096 in
/-- Claim C8 (witness): the amended theorem applied to concrete inputs:
a failing decoder leaves the v2.1.0 state unchanged with the empty
response, and a successful v2.2.0 detection increments
`totalDetections` from 0 to 1. -/
theorem C8_witness :
    detect_v1 dErr rdEmpty true initStats ⟨some "abc", none, none⟩ =
      (initStats, ⟨[], none, none, none⟩) ∧
    (detect_v2 dOk rdPerson true true none "tfjs-node" initStats
        ⟨some longImg, none, none⟩).1 =
      ⟨initStats.totalConnections, initStats.activeUsers,
        initStats.totalDetections + 1, initStats.peakUsers⟩ :=
  ⟨(C8_amended dErr rdEmpty none "tfjs-node" initStats ⟨some "abc", none, none⟩
      0 "decode failed" []).1 rfl,
   (C8_amended dOk rdPerson none "tfjs-node" initStats ⟨some longImg, none, none⟩
      0 "" []).2.2.2.1 (by decide)⟩

/-- Appending to a non-empty string prefix keeps it non-empty. -/
lemma append_ne_empty (p q : String) (hp : p ≠ "") : p ++ q ≠ "" := by
  intro h
  apply hp
  rcases p with ⟨pd⟩
  rcases q with ⟨qd⟩
  have hd : pd ++ qd = [] := by
    have := congrArg String.data h
    simpa using this
  have hnil : pd = [] := (List.append_eq_nil.mp hd).1
  simp [hnil]

/-- Claim C9: `POST /reload-model` (v2.2.0) first resets
`modelLoaded = false` and clears `loadError`, then re-invokes
`loadModel` from scratch; afterwards the configuration is either
`modelLoaded = true` with `loadError` cleared, or `modelLoaded = false`
with a populated (non-empty) error — never an ambiguous intermediate
state. -/
theorem C9_reload (env : LoadEnv) (cfg : ModelConfig) :
    (reloadModel env cfg).1 = loadModel env ⟨false, none, cfg.backend⟩ ∧
    (((reloadModel env cfg).1.modelLoaded = true ∧
        (reloadModel env cfg).1.loadError = none) ∨
      ((reloadModel env cfg).1.modelLoaded = false ∧
        ∃ e, (reloadModel env cfg).1.loadError = some e ∧ e ≠ "")) := by
  refine ⟨rfl, ?_⟩
  rcases env with ⟨tn, tp, cl⟩
  cases tn with
  | none =>
      cases cl with
      | none => left; exact ⟨rfl, rfl⟩
      | some me =>
          right
          refine ⟨rfl, "Model failed to load: " ++ me, rfl, ?_⟩
          exact append_ne_empty _ _ (by decide)
  | some ne =>
      cases tp with
      | none =>
          cases cl with
          | none => left; exact ⟨rfl, rfl⟩
          | some me =>
              right
              refine ⟨rfl, "Model failed to load: " ++ me, rfl, ?_⟩
              exact append_ne_empty _ _ (by decide)
      | some pe =>
          right
          refine ⟨rfl, "TensorFlow failed to load: " ++ ne, rfl, ?_⟩
          exact append_ne_empty _ _ (by decide)

/-- Claim C10: all three revisions resolve the optional detect
parameters with JS `||`, so an explicitly supplied `confidence = 0` or
`maxDetections = 0` is treated as absent and replaced by the defaults
0.35 and 5; consequently no request can reach the Detector with a zero
confidence threshold or a zero max-result count, and a request carrying
the explicit zeros is handled exactly like one carrying no parameters
(shown for the v2.1.0 handler, whose resolution expressions are
identical in v2.2.0 and v2.3.0). -/
theorem C10_defaults :
    jsOrRat (some 0) 0.35 = 0.35 ∧
    jsOrNat (some 0) 5 = 5 ∧
    (∀ v : Option ℚ, jsOrRat v 0.35 ≠ 0) ∧
    (∀ v : Option Nat, jsOrNat v 5 ≠ 0) ∧
    (∀ (τ : Type) (decode : String → Except String τ)
        (runDetect : τ → Nat → ℚ → Except String (List Pred))
        (ml : Bool) (st : Stats) (img : Option String),
      detect_v1 decode runDetect ml st ⟨img, some 0, some 0⟩ =
        detect_v1 decode runDetect ml st ⟨img, none, none⟩) := by
  refine ⟨by norm_num [jsOrRat], by norm_num [jsOrNat], ?_, ?_, ?_⟩
  · intro v
    cases v with
    | none => norm_num [jsOrRat]
    | some q =>
        simp only [jsOrRat]
        split
        · norm_num
        · assumption
  · intro v
    cases v with
    | none => norm_num [jsOrNat]
    | some n =>
        simp only [jsOrNat]
        split
        · norm_num
        · assumption
  · intro τ decode runDetect ml st img
    simp [detect_v1, jsOrRat, jsOrNat]

end FnServer
